import Mathlib

/-!
Shallow embedding of the Cloudflare Worker form-intake handler
(src/src/index.ts) and proofs about it.

The worker accepts job-application submissions (multipart form data,
validated by a zod-form-data schema named formSchema) and rider
registrations (JSON, validated by RiderFormSchema), renders an HTML
email from the validated fields and relays it through the Resend email
provider, returning a JSON response.

Modelling conventions:
  * A request carries the outcome of the two body parsers the worker may
    invoke: request.json (rider path) and request.formData (job path).
    A parse that throws is an Except.error carrying the thrown value.
  * JavaScript exceptions and provider errors are modelled by the string
    JSON.stringify returns on them, which is all the handler uses.
  * The provider call resend.emails.send is modelled by a parameter
    giving the outcome of the (at most one) send call of the request:
    Except.error e if the awaited call throws, Except.ok (some err) if
    it resolves with an error field, Except.ok none on success.  The
    handler result records the list of messages passed to send.
  * Response bodies are the JavaScript object literals passed to
    JSON.stringify at each return site, as a dedicated inductive type.
  * File contents are byte lists (each byte below 256); file.size in JS
    is the byte length.
-/

namespace FormIntake

/-- A JavaScript File as the handler uses it: name, MIME type and raw
bytes; file.size is the number of bytes and cv.arrayBuffer() yields the
bytes themselves. -/
structure JsFile where
  name : String
  type : String
  content : List Nat
deriving DecidableEq, Repr

/-- file.size: the length in bytes. -/
def JsFile.size (f : JsFile) : Nat := f.content.length

/-- A thrown JavaScript value, identified by what JSON.stringify returns
on it (the only use the handler makes of a caught value besides logging). -/
structure Exn where
  stringified : String
deriving DecidableEq, Repr

/-- An error value resolved by resend.emails.send, likewise identified by
its JSON.stringify image. -/
structure ResendError where
  stringified : String
deriving DecidableEq, Repr

/-! ## Job-application schema (formSchema)

formSchema = zfd.formData with four zfd.text fields and one zfd.file
field.  zfd.text maps an empty string to undefined before validating, so
a missing or empty field fails z.string with message "Required"; the
min(1) messages of the source are kept for fidelity though the empty
string can no longer reach them.  zfd.file on a missing entry fails
z.instanceof(File); on a present file both refinements run and each
failing one contributes its message. -/

/-- Multipart form data as far as formSchema reads it: each declared
field either absent or present. -/
structure JobForm where
  role : Option String
  motivation : Option String
  projects : Option String
  message : Option String
  cv : Option JsFile
deriving DecidableEq, Repr

/-- The empty-string preprocessing of zfd.text: an empty string becomes
undefined before the inner schema runs. -/
def zfdStripEmpty : Option String → Option String
  | none => none
  | some s => if s = "" then none else some s

/-- Error messages of one zfd.text(z.string().min(1, minMsg)) field.
zfd.text first turns the empty string into undefined. -/
def zfdText (minMsg : String) (v : Option String) : List String :=
  match zfdStripEmpty v with
  | none => ["Required"]
  | some s => if s.length < 1 then [minMsg] else []

/-- Error messages of the cv field: zfd.file() with the size and PDF
refinements of the source. -/
def cvErrors : Option JsFile → List String
  | none => ["Input not instance of File"]
  | some f =>
      (if f.size ≤ 2 * 1024 * 1024 then [] else ["File size must be less than 2MB"]) ++
      (if f.type = "application/pdf" then [] else ["Only PDF files are allowed"])

/-- The fieldErrors map of result.error.flatten(): one entry per field
that has at least one issue, in schema-key order. -/
def formSchemaFieldErrors (f : JobForm) : List (String × List String) :=
  (let e := zfdText "Role is required" f.role
   if e.isEmpty then [] else [("role", e)]) ++
  (let e := zfdText "Motivation is required" f.motivation
   if e.isEmpty then [] else [("motivation", e)]) ++
  (let e := zfdText "Please list some projects you've worked on before" f.projects
   if e.isEmpty then [] else [("projects", e)]) ++
  (let e := zfdText "Please provide reasons why you are a good fit for this role" f.message
   if e.isEmpty then [] else [("message", e)]) ++
  (let e := cvErrors f.cv
   if e.isEmpty then [] else [("cv", e)])

/-- A job-application payload that passed formSchema. -/
structure JobData where
  role : String
  motivation : String
  projects : String
  message : String
  cv : JsFile
deriving DecidableEq, Repr

/-- formSchema.safeParse: ok with the parsed data when no field has an
issue, error with the flattened field errors otherwise. -/
def formSchemaSafeParse (f : JobForm) : Except (List (String × List String)) JobData :=
  match formSchemaFieldErrors f with
  | [] =>
      match f.role, f.motivation, f.projects, f.message, f.cv with
      | some r, some m, some p, some msg, some cv =>
          .ok { role := r, motivation := m, projects := p, message := msg, cv := cv }
      | _, _, _, _, _ => .error (formSchemaFieldErrors f)
  | _ => .error (formSchemaFieldErrors f)

/-! ## Rider schema (RiderFormSchema)

z.object with email optional trimmed string, phone trimmed string (no
minimum), gender and fname and lname trimmed strings of minimum length 2,
DOB a string of minimum length 2 (no trim).  The .trim() transform is
applied to the parsed output. -/

/-- Drop leading whitespace characters of a character list. -/
def dropLeadingWs : List Char → List Char
  | [] => []
  | c :: rest => if c.isWhitespace then dropLeadingWs rest else c :: rest

/-- The .trim() transform of the zod string schemas (JavaScript
String.prototype.trim): strip whitespace from both ends.  Defined by
structural recursion over the characters so that concrete values
compute. -/
def jsTrim (s : String) : String :=
  String.mk (dropLeadingWs (dropLeadingWs s.data.reverse).reverse)

/-- The rider JSON body as far as RiderFormSchema reads it: each declared
key either absent or a string. -/
structure RiderInput where
  email : Option String
  phone : Option String
  gender : Option String
  DOB : Option String
  fname : Option String
  lname : Option String
deriving DecidableEq, Repr

/-- Issue messages of a required z.string().trim().min(2, msg) field. -/
def zTrimMin2 (msg : String) (v : Option String) : List String :=
  match v with
  | none => ["Required"]
  | some s => if (jsTrim s).length < 2 then [msg] else []

/-- Issue messages of the DOB field, z.string().min(2, msg) without trim. -/
def zMin2 (msg : String) (v : Option String) : List String :=
  match v with
  | none => ["Required"]
  | some s => if s.length < 2 then [msg] else []

/-- Issue messages of the phone field, z.string().trim() with no minimum:
only a missing value fails. -/
def zTrimRequired (v : Option String) : List String :=
  match v with
  | none => ["Required"]
  | some _ => []

/-- All issues RiderFormSchema raises on an input, in key order. -/
def riderIssues (d : RiderInput) : List String :=
  zTrimRequired d.phone ++
  zTrimMin2 "Please enter your gender" d.gender ++
  zMin2 "Please enter your Date of birth" d.DOB ++
  zTrimMin2 "Please enter first name" d.fname ++
  zTrimMin2 "Please enter Last name" d.lname

/-- A rider payload that passed RiderFormSchema, with the .trim()
transforms applied (DOB has no trim in the schema). -/
structure RiderFormValues where
  email : Option String
  phone : String
  gender : String
  DOB : String
  fname : String
  lname : String
deriving DecidableEq, Repr

/-- RiderFormSchema.parse, as a total function: ok with the transformed
values when there is no issue, error with the issue list when the zod
parse would throw a ZodError. -/
def riderParse (d : RiderInput) : Except (List String) RiderFormValues :=
  match riderIssues d with
  | [] =>
      match d.phone, d.gender, d.DOB, d.fname, d.lname with
      | some ph, some g, some dob, some fn, some ln =>
          .ok { email := d.email.map jsTrim, phone := jsTrim ph, gender := jsTrim g,
                DOB := dob, fname := jsTrim fn, lname := jsTrim ln }
      | _, _, _, _, _ => .error (riderIssues d)
  | _ => .error (riderIssues d)

/-- JSON.stringify of the ZodError thrown by RiderFormSchema.parse,
modelled as a JSON object listing the issue messages (the handler embeds
this string opaquely in its 500 body; no claim depends on its exact
shape). -/
def zodErrorStringify (issues : List String) : String :=
  "\x7b\"issues\":[" ++ String.intercalate "," (issues.map (fun m => "\"" ++ m ++ "\"")) ++ "]\x7d"

/-! ## HTML templates

Pure rendering helpers; the JavaScript template literals are transcribed
as string concatenations.  A brace of the CSS is written \x7b or \x7d. -/

/-- The job-application fields handed to createEmailTemplate: the parsed
data without cv (type EmailData = Omit of cv in the source). -/
structure EmailData where
  role : String
  motivation : String
  projects : String
  message : String
deriving DecidableEq, Repr

/-- How a JavaScript template literal renders a possibly-undefined value:
undefined becomes the text "undefined". -/
def jsInterp : Option String → String
  | none => "undefined"
  | some s => s

/-- createEmailTemplate of the source, the job-application HTML body. -/
def createEmailTemplate (data : EmailData) : String :=
  "\n<!DOCTYPE html>\n<html>\n<head>\n    <style>\n" ++
  "        body \x7b font-family: Arial, sans-serif; line-height: 1.6; \x7d\n" ++
  "        .container \x7b max-width: 600px; margin: 0 auto; padding: 20px; \x7d\n" ++
  "        .header \x7b background-color: #f4f4f4; padding: 10px; text-align: center; \x7d\n" ++
  "        .content \x7b margin: 20px 0; \x7d\n" ++
  "        .footer \x7b margin-top: 20px; font-size: 0.8em; color: #666; \x7d\n" ++
  "    </style>\n</head>\n<body>\n    <div class=\"container\">\n" ++
  "        <div class=\"header\">\n            <h1>New Application Received</h1>\n        </div>\n" ++
  "        <div class=\"content\">\n" ++
  "            <p><strong>Role:</strong> " ++ data.role ++ "</p>\n" ++
  "            <p><strong>Motivation:</strong> " ++ data.motivation ++ "</p>\n" ++
  "            <p><strong>Projects:</strong> " ++ data.projects ++ "</p>\n" ++
  "            <p><strong>Message:</strong></p>\n" ++
  "            <p>" ++ data.message ++ "</p>\n" ++
  "        </div>\n        <div class=\"footer\">\n" ++
  "            <p>This email was sent from your virgasapp recruitment form.</p>\n" ++
  "        </div>\n    </div>\n</body>\n</html>\n"

/-- createRiderTemplate of the source, the rider HTML body.  riderData
also receives the destructured NOK and NOKnumber properties, both
undefined since RiderFormSchema declares neither; the template never
reads them, so they are dropped here.  riderData.email may be undefined
and then renders as "undefined". -/
def createRiderTemplate (riderData : RiderFormValues) : String :=
  "\n<!DOCTYPE html>\n<html>\n<head>\n    <style>\n" ++
  "        body \x7b font-family: Arial, sans-serif; line-height: 1.6; \x7d\n" ++
  "        .container \x7b max-width: 600px; margin: 0 auto; padding: 20px; \x7d\n" ++
  "        .header \x7b background-color: #f4f4f4; padding: 10px; text-align: center; \x7d\n" ++
  "        .content \x7b margin: 20px 0; \x7d\n" ++
  "        .footer \x7b margin-top: 20px; font-size: 0.8em; color: #666; \x7d\n" ++
  "    </style>\n</head>\n<body>\n    <div class=\"container\">\n" ++
  "        <div class=\"header\">\n            <h1>New Rider Application Received</h1>\n        </div>\n" ++
  "        <div class=\"content\">\n" ++
  "            <p><strong>First Name:</strong> " ++ riderData.fname ++ "</p>\n" ++
  "            <p><strong>Last name:</strong> " ++ riderData.lname ++ "</p>\n" ++
  "            <p><strong>Phone number:</strong> " ++ riderData.phone ++ "</p>\n" ++
  "\t\t\t<p><strong>Email:</strong> " ++ jsInterp riderData.email ++ "</p>\n" ++
  "\t\t\t <p><strong>Gender:</strong> " ++ riderData.gender ++ "</p>\n" ++
  "\t\t\t<p><strong>Date of birth:</strong> " ++ riderData.DOB ++ "</p>\n" ++
  "        </div>\n        <div class=\"footer\">\n" ++
  "            <p>This email was sent from your virgasapp riders form.</p>\n" ++
  "        </div>\n    </div>\n</body>\n</html>\n"

/-! ## Base64

Buffer.from(fileBuffer).toString("base64") of the job path: standard
base64 with padding over the bytes of the cv file.  The decoder is the
inverse direction the specification speaks about (the attachment content
decodes back to the original bytes); it accepts exactly the padded
four-character blocks the encoder emits. -/

/-- The base64 alphabet, value order. -/
def b64Chars : List Char :=
  ['A', 'B', 'C', 'D', 'E', 'F', 'G', 'H', 'I', 'J', 'K', 'L', 'M',
   'N', 'O', 'P', 'Q', 'R', 'S', 'T', 'U', 'V', 'W', 'X', 'Y', 'Z',
   'a', 'b', 'c', 'd', 'e', 'f', 'g', 'h', 'i', 'j', 'k', 'l', 'm',
   'n', 'o', 'p', 'q', 'r', 's', 't', 'u', 'v', 'w', 'x', 'y', 'z',
   '0', '1', '2', '3', '4', '5', '6', '7', '8', '9', '+', '/']

/-- Digit value 0..63 to base64 character. -/
def b64Char (n : Nat) : Char := b64Chars.getD n 'A'

/-- Base64 character back to its digit value. -/
def b64Index (c : Char) : Option Nat :=
  let i := b64Chars.indexOf c
  if i < 64 then some i else none

/-- Base64-encode a byte list, three bytes to four characters, with
= padding on a trailing group of one or two bytes. -/
def base64EncodeL : List Nat → List Char
  | [] => []
  | [a] => [b64Char (a / 4), b64Char (a % 4 * 16), '=', '=']
  | [a, b] => [b64Char (a / 4), b64Char (a % 4 * 16 + b / 16), b64Char (b % 16 * 4), '=']
  | a :: b :: c :: rest =>
      b64Char (a / 4) :: b64Char (a % 4 * 16 + b / 16) ::
        b64Char (b % 16 * 4 + c / 64) :: b64Char (c % 64) :: base64EncodeL rest

/-- Base64-decode a character list; none on any input the encoder cannot
produce. -/
def base64DecodeL : List Char → Option (List Nat)
  | [] => some []
  | w :: x :: y :: z :: rest =>
      match b64Index w, b64Index x with
      | some vw, some vx =>
          if y = '=' ∧ z = '=' ∧ rest = [] then
            if vx % 16 = 0 then some [vw * 4 + vx / 16] else none
          else if z = '=' ∧ rest = [] then
            match b64Index y with
            | some vy =>
                if vy % 4 = 0 then some [vw * 4 + vx / 16, vx % 16 * 16 + vy / 4] else none
            | none => none
          else
            match b64Index y, b64Index z, base64DecodeL rest with
            | some vy, some vz, some bs =>
                some ((vw * 4 + vx / 16) :: (vx % 16 * 16 + vy / 4) :: (vy % 4 * 64 + vz) :: bs)
            | _, _, _ => none
      | _, _ => none
  | _ => none

/-- Buffer.from(fileBuffer).toString("base64"): the encoder as a String. -/
def base64EncodeStr (bytes : List Nat) : String :=
  String.mk (base64EncodeL bytes)

/-- String-level decoder. -/
def base64DecodeStr (s : String) : Option (List Nat) :=
  base64DecodeL s.toList

/-! ## Responses, email messages, requests -/

/-- The fixed corsHeaders object of the source, in key order. -/
def corsHeaders : List (String × String) :=
  [("Access-Control-Allow-Origin", "*"),
   ("Access-Control-Allow-Methods", "GET, POST, PUT, DELETE, OPTIONS"),
   ("Access-Control-Allow-Headers", "Content-Type, Authorization"),
   ("Access-Control-Max-Age", "86400")]

/-- The header object every JSON response of the handler is built with:
Content-Type followed by the spread corsHeaders. -/
def jsonCorsHeaders : List (String × String) :=
  ("Content-Type", "application/json") :: corsHeaders

/-- The JavaScript object literals the handler passes to JSON.stringify
as response bodies, one constructor per literal shape in the source. -/
inductive RespBody where
  /-- status 405 body of the source. -/
  | methodNotAllowed : RespBody
  /-- status 400 body of the rider branch of the source. -/
  | riderInvalid : RespBody
  /-- status 400 body of the job branch: success false together with
  result.error.flatten(), itself formErrors (empty here, all issues carry
  a path) next to the fieldErrors map. -/
  | jobInvalid (fieldErrors : List (String × List String)) : RespBody
  /-- the 500 body used by both provider-error branches and both catch
  blocks: success false, the fixed failure message, and
  JSON.stringify of the error value. -/
  | sendFailed (errorStringified : String) : RespBody
  /-- the 200 body: success true with the fixed success message. -/
  | sent : RespBody
deriving DecidableEq, Repr

/-- An HTTP response as the handler constructs it: status, JSON body (or
none for the bodyless 204), and headers. -/
structure Response where
  status : Nat
  body : Option RespBody
  headers : List (String × String)
deriving DecidableEq, Repr

/-- One entry of the attachments array of resend.emails.send. -/
structure EmailAttachment where
  filename : String
  content : String
deriving DecidableEq, Repr

/-- The argument object of resend.emails.send. -/
structure EmailMsg where
  senderAddr : String
  recipientAddr : String
  subject : String
  html : String
  attachments : List EmailAttachment
deriving DecidableEq, Repr

/-- The worker environment bindings the handler reads. -/
structure Env where
  RESEND_API_KEY : String
  RESEND_EMAIL : String
  VIRGAS_EMAIL : String
deriving DecidableEq, Repr

/-- An inbound request: method, the pathname of its URL, and the outcome
of each body parser the handler may call (an Except.error is a parser
throw, caught by the enclosing try). -/
structure Request where
  method : String
  path : String
  jsonBody : Except Exn RiderInput
  formBody : Except Exn JobForm

/-- Truthiness of the value RiderFormSchema.parse returns: a JavaScript
object is always truthy, so the source's if-not-result branch cannot be
taken. -/
def jsTruthy (_ : RiderFormValues) : Bool := true

/-! ## The handler -/

/-- The 500 response both catch blocks and both provider-error branches
build, with JSON.stringify of the error value in the body. -/
def failureResponse (stringified : String) : Response :=
  { status := 500, body := some (.sendFailed stringified), headers := jsonCorsHeaders }

/-- The 200 success response of both send paths. -/
def successResponse : Response :=
  { status := 200, body := some .sent, headers := jsonCorsHeaders }

/-- The argument the rider path passes to resend.emails.send: fixed
sender and recipient from the environment, fixed subject, the rider
template as body, no attachments. -/
def riderMsg (env : Env) (r : RiderFormValues) : EmailMsg :=
  { senderAddr := "Virgas Hiring " ++ env.RESEND_EMAIL,
    recipientAddr := env.VIRGAS_EMAIL,
    subject := "New Virgas Job Application",
    html := createRiderTemplate r,
    attachments := [] }

/-- The argument the job path passes to resend.emails.send: as the rider
one, but with the job template and the base64-encoded cv attached under
its original filename. -/
def jobMsg (env : Env) (d : JobData) : EmailMsg :=
  { senderAddr := "Virgas Hiring " ++ env.RESEND_EMAIL,
    recipientAddr := env.VIRGAS_EMAIL,
    subject := "New Virgas Job Application",
    html := createEmailTemplate
      { role := d.role, motivation := d.motivation,
        projects := d.projects, message := d.message },
    attachments := [{ filename := d.cv.name, content := base64EncodeStr d.cv.content }] }

/-- The fetch handler of the source.  sendResult is the outcome of the
at most one resend.emails.send call the request performs; the second
component of the result lists the messages passed to send, in order. -/
def fetch (sendResult : Except Exn (Option ResendError)) (env : Env) (request : Request) :
    Response × List EmailMsg :=
  if request.method = "OPTIONS" then
    ({ status := 204, body := none, headers := corsHeaders }, [])
  else if request.method ≠ "POST" then
    ({ status := 405, body := some .methodNotAllowed, headers := jsonCorsHeaders }, [])
  else if request.path = "/riders" then
    match request.jsonBody with
    | .error err => (failureResponse err.stringified, [])
    | .ok riderData =>
        match riderParse riderData with
        | .error issues =>
            -- RiderFormSchema.parse throws a ZodError, caught by the rider catch block
            (failureResponse (zodErrorStringify issues), [])
        | .ok result =>
            if jsTruthy result = false then
              ({ status := 400, body := some .riderInvalid, headers := jsonCorsHeaders }, [])
            else
              let msg : EmailMsg := riderMsg env result
              match sendResult with
              | .error err => (failureResponse err.stringified, [msg])
              | .ok (some err) => (failureResponse err.stringified, [msg])
              | .ok none => (successResponse, [msg])
  else
    match request.formBody with
    | .error err => (failureResponse err.stringified, [])
    | .ok formData =>
        match formSchemaSafeParse formData with
        | .error errors =>
            ({ status := 400, body := some (.jobInvalid errors), headers := jsonCorsHeaders }, [])
        | .ok result =>
            let msg : EmailMsg := jobMsg env result
            match sendResult with
            | .error err => (failureResponse err.stringified, [msg])
            | .ok (some err) => (failureResponse err.stringified, [msg])
            | .ok none => (successResponse, [msg])

/-! ## Statement helpers and concrete fixtures -/

/-- Look up one of the four required job-application text fields by its
schema key (a statement helper for quantifying over field names). -/
def JobForm.getText (f : JobForm) : String → Option String
  | "role" => f.role
  | "motivation" => f.motivation
  | "projects" => f.projects
  | "message" => f.message
  | _ => none

/-- Whether sub occurs as a contiguous character run of s. -/
def charsContain (sub : List Char) : List Char → Bool
  | [] => sub.isEmpty
  | c :: rest => sub.isPrefixOf (c :: rest) || charsContain sub rest

/-- Whether sub occurs as a substring of s. -/
def strContains (s sub : String) : Bool := charsContain sub.data s.data

/-- A concrete worker environment for concrete evaluations. -/
def envA : Env :=
  { RESEND_API_KEY := "re_key", RESEND_EMAIL := "hiring@virgasapp.com",
    VIRGAS_EMAIL := "recruiting@virgasapp.com" }

/-- A rider-path request with the given JSON parse outcome (the handler
never reads the form body on this path; its value is irrelevant). -/
def riderRequest (jb : Except Exn RiderInput) : Request :=
  { method := "POST", path := "/riders", jsonBody := jb, formBody := .error ⟨"unread"⟩ }

/-- A job-path request with the given form parse outcome (the handler
never reads the JSON body on this path; its value is irrelevant). -/
def jobRequest (fb : Except Exn JobForm) : Request :=
  { method := "POST", path := "/", jsonBody := .error ⟨"unread"⟩, formBody := fb }

/-- The rider body of the concrete scenario of the specification. -/
def janeInput : RiderInput :=
  { email := none, phone := some "0700000000", gender := some "female",
    DOB := some "1990-01-01", fname := some "Jane", lname := some "Doe" }

/-- The values RiderFormSchema.parse returns on janeInput. -/
def janeValues : RiderFormValues :=
  { email := none, phone := "0700000000", gender := "female",
    DOB := "1990-01-01", fname := "Jane", lname := "Doe" }

/-- A small PDF upload. -/
def pdfFile : JsFile :=
  { name := "cv.pdf", type := "application/pdf", content := [37, 80, 68, 70, 45, 49, 46, 52] }

/-- A complete valid job-application form around pdfFile. -/
def jobFormA : JobForm :=
  { role := some "Engineer", motivation := some "Growth", projects := some "X",
    message := some "Y", cv := some pdfFile }

/-- A PDF upload one byte over the 2 MiB bound. -/
def bigPdfFile : JsFile :=
  { name := "cv.pdf", type := "application/pdf",
    content := List.replicate (2 * 1024 * 1024 + 1) 0 }

/-- A plain-text upload within the size bound. -/
def textFile : JsFile :=
  { name := "cv.txt", type := "text/plain", content := [104, 105] }

/-! ## Base64 lemmas -/

/-- Decoding a base64 digit character recovers the digit, on Fin 64. -/
theorem b64Index_b64Char_fin : ∀ n : Fin 64, b64Index (b64Char n.val) = some n.val := by decide

/-- Decoding a base64 digit character recovers the digit. -/
theorem b64Index_b64Char (n : Nat) (h : n < 64) : b64Index (b64Char n) = some n :=
  b64Index_b64Char_fin ⟨n, h⟩

/-- No base64 digit character on Fin 64 is the padding character. -/
theorem b64Char_ne_pad_fin : ∀ n : Fin 64, b64Char n.val ≠ '=' := by decide

/-- No base64 digit character is the padding character. -/
theorem b64Char_ne_pad (n : Nat) : b64Char n ≠ '=' := by
  by_cases h : n < 64
  · exact b64Char_ne_pad_fin ⟨n, h⟩
  · unfold b64Char
    rw [List.getD_eq_default]
    · decide
    · simp only [not_lt] at h
      simpa [b64Chars] using h

/-- Round trip: decoding an encoded byte list gives back the bytes. -/
theorem base64_roundtrip : ∀ bs : List Nat, (∀ b ∈ bs, b < 256) →
    base64DecodeL (base64EncodeL bs) = some bs
  | [], _ => rfl
  | [a], h => by
      have ha : a < 256 := h a (by simp)
      have h1 := b64Index_b64Char (a / 4) (by omega)
      have h2 := b64Index_b64Char (a % 4 * 16) (by omega)
      simp [base64EncodeL, base64DecodeL, h1, h2, Nat.mul_mod_left]
      omega
  | [a, b], h => by
      have ha : a < 256 := h a (by simp)
      have hb : b < 256 := h b (by simp)
      have h1 := b64Index_b64Char (a / 4) (by omega)
      have h2 := b64Index_b64Char (a % 4 * 16 + b / 16) (by omega)
      have h3 := b64Index_b64Char (b % 16 * 4) (by omega)
      have n3 := b64Char_ne_pad (b % 16 * 4)
      simp [base64EncodeL, base64DecodeL, h1, h2, h3, n3, Nat.mul_mod_left]
      omega
  | a :: b :: c :: rest, h => by
      have ha : a < 256 := h a (by simp)
      have hb : b < 256 := h b (by simp)
      have hc : c < 256 := h c (by simp)
      have ih := base64_roundtrip rest (fun x hx => h x (by simp [hx]))
      have h1 := b64Index_b64Char (a / 4) (by omega)
      have h2 := b64Index_b64Char (a % 4 * 16 + b / 16) (by omega)
      have h3 := b64Index_b64Char (b % 16 * 4 + c / 64) (by omega)
      have h4 := b64Index_b64Char (c % 64) (by omega)
      have n3 := b64Char_ne_pad (b % 16 * 4 + c / 64)
      have n4 := b64Char_ne_pad (c % 64)
      simp [base64EncodeL, base64DecodeL, h1, h2, h3, h4, n3, n4, ih]
      omega

/-- String-level round trip. -/
theorem base64_roundtrip_str (bs : List Nat) (h : ∀ b ∈ bs, b < 256) :
    base64DecodeStr (base64EncodeStr bs) = some bs := by
  simpa [base64DecodeStr, base64EncodeStr] using base64_roundtrip bs h

/-! ## Schema lemmas -/

/-- A present, non-empty text field raises no issue. -/
theorem zfdText_nonempty (m s : String) (h : s ≠ "") : zfdText m (some s) = [] := by
  have h1 : zfdStripEmpty (some s) = some s := by simp [zfdStripEmpty, h]
  unfold zfdText
  rw [h1]
  have h2 : ¬ s.length < 1 := by
    obtain ⟨cs⟩ := s
    cases cs with
    | nil => exact absurd rfl h
    | cons c r => simp [String.length]
  simp [h2]

/-- A PDF within the size bound passes both cv refinements. -/
theorem cvErrors_ok (f : JsFile) (hs : f.size ≤ 2 * 1024 * 1024)
    (ht : f.type = "application/pdf") : cvErrors (some f) = [] := by
  simp [cvErrors, hs, ht]

/-- With any field issue at all, safeParse reports the flattened errors. -/
theorem formSchemaSafeParse_error (f : JobForm) (h : formSchemaFieldErrors f ≠ []) :
    formSchemaSafeParse f = .error (formSchemaFieldErrors f) := by
  unfold formSchemaSafeParse
  split
  · rename_i heq
    exact absurd heq h
  · rfl

/-- A fully valid job form parses to its data. -/
theorem formSchemaSafeParse_ok (r m p ms : String) (cv : JsFile)
    (hr : r ≠ "") (hm : m ≠ "") (hp : p ≠ "") (hms : ms ≠ "")
    (hs : cv.size ≤ 2 * 1024 * 1024) (ht : cv.type = "application/pdf") :
    formSchemaSafeParse
      { role := some r, motivation := some m, projects := some p,
        message := some ms, cv := some cv } =
      .ok { role := r, motivation := m, projects := p, message := ms, cv := cv } := by
  have hE : formSchemaFieldErrors
      { role := some r, motivation := some m, projects := some p,
        message := some ms, cv := some cv } = [] := by
    simp [formSchemaFieldErrors, zfdText_nonempty _ _ hr, zfdText_nonempty _ _ hm,
      zfdText_nonempty _ _ hp, zfdText_nonempty _ _ hms, cvErrors_ok cv hs ht]
  unfold formSchemaSafeParse
  rw [hE]

/-- A rider input with all required keys present and the four minimum
lengths met parses to its trimmed values. -/
theorem riderParse_ok (em : Option String) (ph g dob fn ln : String)
    (hg : 2 ≤ (jsTrim g).length) (hdob : 2 ≤ dob.length)
    (hfn : 2 ≤ (jsTrim fn).length) (hln : 2 ≤ (jsTrim ln).length) :
    riderParse { email := em, phone := some ph, gender := some g,
                 DOB := some dob, fname := some fn, lname := some ln } =
      .ok { email := em.map jsTrim, phone := jsTrim ph, gender := jsTrim g,
            DOB := dob, fname := jsTrim fn, lname := jsTrim ln } := by
  have hIss : riderIssues ⟨em, some ph, some g, some dob, some fn, some ln⟩ = [] := by
    unfold riderIssues zTrimRequired zTrimMin2 zMin2
    simp only []
    rw [if_neg (by omega), if_neg (by omega), if_neg (by omega), if_neg (by omega)]
    rfl
  unfold riderParse
  rw [hIss]

/-! ## Handler lemmas -/

/-- A job form with any field issue is answered 400 with the flattened
field errors. -/
theorem fetch_job_invalid (sr : Except Exn (Option ResendError)) (env : Env)
    (p : String) (jb : Except Exn RiderInput) (f : JobForm)
    (hp : p ≠ "/riders") (h : formSchemaFieldErrors f ≠ []) :
    (fetch sr env { method := "POST", path := p, jsonBody := jb, formBody := .ok f }).1 =
      { status := 400, body := some (.jobInvalid (formSchemaFieldErrors f)),
        headers := jsonCorsHeaders } := by
  have hS := formSchemaSafeParse_error f h
  simp [fetch, hp, hS]

/-- A failing cv check makes the whole error map non-empty. -/
theorem formSchemaFieldErrors_cv (f : JobForm) (h : cvErrors f.cv ≠ []) :
    formSchemaFieldErrors f ≠ [] := by
  intro hE
  unfold formSchemaFieldErrors at hE
  rcases hcv : cvErrors f.cv with _ | ⟨x, xs⟩
  · exact h hcv
  · rw [hcv] at hE
    simp at hE

/-! ## Claims -/

/-- Claim C1 (code bug): the claim says a POST to /riders whose JSON body
fails the Rider schema is answered with status 400 and body success
false.  The code disagrees: RiderFormSchema.parse throws a ZodError on
invalid input, so control reaches the rider catch block and the response
has status 500 with the sendFailed body; the 400 branch guarding
if-not-result is unreachable, a parsed object being always truthy.
Evaluated at a body whose gender is one character long. -/
theorem c1_rider_validation_failure_gets_500 :
    (fetch (.ok none) envA (riderRequest (.ok { janeInput with gender := some "f" }))).1.status = 500 ∧
    (fetch (.ok none) envA (riderRequest (.ok { janeInput with gender := some "f" }))).1.body =
      some (RespBody.sendFailed (zodErrorStringify ["Please enter your gender"])) ∧
    (fetch (.ok none) envA (riderRequest (.ok { janeInput with gender := some "f" }))).1 ≠
      { status := 400, body := some RespBody.riderInvalid, headers := jsonCorsHeaders } := by
  refine ⟨rfl, rfl, by decide⟩

set_option maxRecDepth 40000 in
/-- Claim C7: POST /riders with the Jane Doe body and the provider
reporting no error calls send exactly once with subject "New Virgas Job
Application" and an HTML body containing Jane, Doe, 0700000000, female
and 1990-01-01, and the handler answers 200 with the success-true body. -/
theorem c7_rider_concrete_scenario (env : Env) :
    (fetch (.ok none) env (riderRequest (.ok janeInput))).1 = successResponse ∧
    (fetch (.ok none) env (riderRequest (.ok janeInput))).2 = [riderMsg env janeValues] ∧
    (riderMsg env janeValues).subject = "New Virgas Job Application" ∧
    strContains (riderMsg env janeValues).html "Jane" = true ∧
    strContains (riderMsg env janeValues).html "Doe" = true ∧
    strContains (riderMsg env janeValues).html "0700000000" = true ∧
    strContains (riderMsg env janeValues).html "female" = true ∧
    strContains (riderMsg env janeValues).html "1990-01-01" = true ∧
    successResponse.status = 200 ∧ successResponse.body = some RespBody.sent := by
  refine ⟨rfl, rfl, rfl, ?_, ?_, ?_, ?_, ?_, rfl, rfl⟩
  · show strContains (createRiderTemplate janeValues) "Jane" = true
    decide
  · show strContains (createRiderTemplate janeValues) "Doe" = true
    decide
  · show strContains (createRiderTemplate janeValues) "0700000000" = true
    decide
  · show strContains (createRiderTemplate janeValues) "female" = true
    decide
  · show strContains (createRiderTemplate janeValues) "1990-01-01" = true
    decide

/-- Claim C9: a request whose method is neither POST nor OPTIONS is
answered 405 with the method-not-allowed body, whatever its path and
bodies. -/
theorem c9_method_not_allowed (sr : Except Exn (Option ResendError)) (env : Env)
    (req : Request) (h1 : req.method ≠ "POST") (h2 : req.method ≠ "OPTIONS") :
    (fetch sr env req).1 =
      { status := 405, body := some RespBody.methodNotAllowed, headers := jsonCorsHeaders } := by
  obtain ⟨m, p, jb, fb⟩ := req
  change m ≠ "POST" at h1
  change m ≠ "OPTIONS" at h2
  simp [fetch, h1, h2]

/-- Witness for C9: a GET to /riders is answered 405. -/
theorem c9_method_not_allowed_witness :
    (fetch (.ok none) envA
      { method := "GET", path := "/riders", jsonBody := .error ⟨"u"⟩, formBody := .error ⟨"u"⟩ }).1 =
      { status := 405, body := some RespBody.methodNotAllowed, headers := jsonCorsHeaders } :=
  c9_method_not_allowed _ _ _ (by decide) (by decide)

/-- Claim C8: every response to a non-OPTIONS request carries exactly the
fixed Content-Type application/json header followed by the cross-origin
header set, on every path and branch. -/
theorem c8_json_headers (sr : Except Exn (Option ResendError)) (env : Env)
    (req : Request) (h : req.method ≠ "OPTIONS") :
    (fetch sr env req).1.headers = jsonCorsHeaders := by
  obtain ⟨m, p, jb, fb⟩ := req
  change m ≠ "OPTIONS" at h
  unfold fetch
  simp only [if_neg h]
  by_cases hP : m ≠ "POST"
  · simp [hP]
  · simp only [if_neg hP]
    by_cases hR : p = "/riders"
    · simp only [if_pos hR]
      rcases jb with e | d
      · rfl
      · rcases hparse : riderParse d with issues | r
        · simp only [hparse]
          rfl
        · simp only [hparse, jsTruthy]
          rcases sr with e | oe
          · rfl
          · rcases oe with _ | e <;> rfl
    · simp only [if_neg hR]
      rcases fb with e | f
      · rfl
      · rcases hparse : formSchemaSafeParse f with errs | d
        · simp only [hparse]
        · simp only [hparse]
          rcases sr with e | oe
          · rfl
          · rcases oe with _ | e <;> rfl

/-- Witness for C8: the 405 response to a concrete GET carries the JSON
and cross-origin headers. -/
theorem c8_json_headers_witness :
    (fetch (.ok none) envA
      { method := "GET", path := "/x", jsonBody := .error ⟨"u"⟩, formBody := .error ⟨"u"⟩ }).1.headers =
      jsonCorsHeaders :=
  c8_json_headers _ _ _ (by decide)

/-- Counterexample to claim C2: on the job-application path the catch
block does put the caught exception's JSON serialization into the
response body (the same error field the rider path uses), so the body is
not only a generic message: at a concrete parse exception the body
carries the exception text verbatim, and two requests differing only in
the thrown exception get different bodies. -/
theorem c2_counterexample_exception_detail_in_body :
    (fetch (.ok none) envA (jobRequest (.error ⟨"\"boom A\""⟩))).1.body =
      some (RespBody.sendFailed "\"boom A\"") ∧
    (fetch (.ok none) envA (jobRequest (.error ⟨"\"boom A\""⟩))).1.body ≠
      (fetch (.ok none) envA (jobRequest (.error ⟨"\"boom B\""⟩))).1.body := by
  refine ⟨rfl, by decide⟩

/-- Claim C2 as amended: an exception thrown during job-path parsing, or
a throwing send on a validated job form, is answered with status 500 and
the body holding success false, the fixed generic failure message, and
the JSON serialization of the exception in its error field (the
exception is also logged, which this model does not observe). -/
theorem c2_job_exception_500 (env : Env) (p : String) (hp : p ≠ "/riders")
    (jb : Except Exn RiderInput) (e : Exn) :
    (∀ sr, (fetch sr env { method := "POST", path := p, jsonBody := jb, formBody := .error e }).1 =
        failureResponse e.stringified) ∧
    (∀ f d, formSchemaSafeParse f = .ok d →
      (fetch (.error e) env { method := "POST", path := p, jsonBody := jb, formBody := .ok f }).1 =
        failureResponse e.stringified) ∧
    (failureResponse e.stringified).status = 500 ∧
    (failureResponse e.stringified).body = some (RespBody.sendFailed e.stringified) := by
  refine ⟨?_, ?_, rfl, rfl⟩
  · intro sr
    simp [fetch, hp]
  · intro f d hd
    simp [fetch, hp, hd]

/-- Witness for the amended C2: a concrete parse exception on the job
path yields the 500 failure response carrying its serialization. -/
theorem c2_job_exception_500_witness :
    (fetch (.ok none) envA (jobRequest (.error ⟨"\"boom\""⟩))).1 = failureResponse "\"boom\"" :=
  (c2_job_exception_500 envA "/" (by decide) (.error ⟨"unread"⟩) ⟨"\"boom\""⟩).1 (.ok none)

/-- Claim C6: when validation passes and the provider resolves with an
error, both paths answer 500 with the failure message and the provider
error's JSON serialization in the body. -/
theorem c6_provider_error_500 (env : Env) (e : ResendError) :
    (∀ d r, riderParse d = .ok r →
      (fetch (.ok (some e)) env (riderRequest (.ok d))).1 = failureResponse e.stringified) ∧
    (∀ p jb f d, p ≠ "/riders" → formSchemaSafeParse f = .ok d →
      (fetch (.ok (some e)) env { method := "POST", path := p, jsonBody := jb, formBody := .ok f }).1 =
        failureResponse e.stringified) ∧
    (failureResponse e.stringified).status = 500 ∧
    (failureResponse e.stringified).body = some (RespBody.sendFailed e.stringified) := by
  refine ⟨?_, ?_, rfl, rfl⟩
  · intro d r hparse
    simp [fetch, riderRequest, hparse, jsTruthy]
  · intro p jb f d hp hparse
    simp [fetch, hp, hparse]

/-- Witness for C6: a concrete provider error is echoed on both paths. -/
theorem c6_provider_error_500_witness :
    (fetch (.ok (some ⟨"\"rate limited\""⟩)) envA (riderRequest (.ok janeInput))).1 =
      failureResponse "\"rate limited\"" ∧
    (fetch (.ok (some ⟨"\"rate limited\""⟩)) envA (jobRequest (.ok jobFormA))).1 =
      failureResponse "\"rate limited\"" :=
  ⟨(c6_provider_error_500 envA ⟨"\"rate limited\""⟩).1 janeInput janeValues rfl,
   (c6_provider_error_500 envA ⟨"\"rate limited\""⟩).2.1 "/" (.error ⟨"unread"⟩) jobFormA
     ⟨"Engineer", "Growth", "X", "Y", pdfFile⟩ (by decide) rfl⟩

/-- Claim C3: a job application with all four text fields non-empty and
a PDF cv of at most 2 MiB, the provider reporting no error, is answered
200 and send is called exactly once, with exactly one attachment whose
base64 content decodes back to the cv's original bytes under the cv's
original filename. -/
theorem c3_valid_job_sends_pdf (env : Env) (p : String) (jb : Except Exn RiderInput)
    (r m pr ms : String) (cv : JsFile)
    (hp : p ≠ "/riders") (hr : r ≠ "") (hm : m ≠ "") (hpr : pr ≠ "") (hms : ms ≠ "")
    (hsize : cv.size ≤ 2 * 1024 * 1024) (htype : cv.type = "application/pdf")
    (hbytes : ∀ b ∈ cv.content, b < 256) :
    (fetch (.ok none) env
      { method := "POST", path := p, jsonBody := jb,
        formBody := .ok ⟨some r, some m, some pr, some ms, some cv⟩ }).1 = successResponse ∧
    successResponse.status = 200 ∧
    (fetch (.ok none) env
      { method := "POST", path := p, jsonBody := jb,
        formBody := .ok ⟨some r, some m, some pr, some ms, some cv⟩ }).2 =
      [jobMsg env ⟨r, m, pr, ms, cv⟩] ∧
    (jobMsg env ⟨r, m, pr, ms, cv⟩).attachments.map
        (fun a => (a.filename, base64DecodeStr a.content)) = [(cv.name, some cv.content)] := by
  have hd := formSchemaSafeParse_ok r m pr ms cv hr hm hpr hms hsize htype
  refine ⟨?_, rfl, ?_, ?_⟩
  · simp [fetch, hp, hd]
  · simp [fetch, hp, hd]
  · simp [jobMsg, base64_roundtrip_str cv.content hbytes]

/-- Witness for C3 at a concrete small PDF. -/
theorem c3_valid_job_sends_pdf_witness :
    (fetch (.ok none) envA
      { method := "POST", path := "/", jsonBody := .error ⟨"unread"⟩,
        formBody := .ok ⟨some "Engineer", some "Growth", some "X", some "Y", some pdfFile⟩ }).1 =
      successResponse ∧
    (fetch (.ok none) envA
      { method := "POST", path := "/", jsonBody := .error ⟨"unread"⟩,
        formBody := .ok ⟨some "Engineer", some "Growth", some "X", some "Y", some pdfFile⟩ }).2 =
      [jobMsg envA ⟨"Engineer", "Growth", "X", "Y", pdfFile⟩] ∧
    (jobMsg envA ⟨"Engineer", "Growth", "X", "Y", pdfFile⟩).attachments.map
        (fun a => (a.filename, base64DecodeStr a.content)) = [(pdfFile.name, some pdfFile.content)] := by
  have h := c3_valid_job_sends_pdf envA "/" (.error ⟨"unread"⟩) "Engineer" "Growth" "X" "Y" pdfFile
    (by decide) (by decide) (by decide) (by decide) (by decide) (by decide) rfl (by decide)
  exact ⟨h.1, h.2.2.1, h.2.2.2⟩

/-- Claim C4: a cv of exactly 2 MiB plus one byte, or of a non-PDF media
type, fails validation and the request is answered 400; a PDF of at most
2 MiB (2 MiB included) passes both cv refinements. -/
theorem c4_cv_size_and_type_checks (sr : Except Exn (Option ResendError)) (env : Env)
    (p : String) (jb : Except Exn RiderInput) (f : JobForm) (cv : JsFile)
    (hp : p ≠ "/riders") (hcv : f.cv = some cv) :
    (cv.size = 2 * 1024 * 1024 + 1 →
      (fetch sr env { method := "POST", path := p, jsonBody := jb, formBody := .ok f }).1.status = 400) ∧
    (cv.type ≠ "application/pdf" →
      (fetch sr env { method := "POST", path := p, jsonBody := jb, formBody := .ok f }).1.status = 400) ∧
    (∀ g : JsFile, g.size ≤ 2 * 1024 * 1024 → g.type = "application/pdf" →
      cvErrors (some g) = []) := by
  refine ⟨?_, ?_, fun g hs ht => cvErrors_ok g hs ht⟩
  · intro hsize
    have hne : cvErrors f.cv ≠ [] := by
      rw [hcv]
      have : ¬ cv.size ≤ 2 * 1024 * 1024 := by omega
      simp [cvErrors, this]
    have h400 := fetch_job_invalid sr env p jb f hp (formSchemaFieldErrors_cv f hne)
    rw [h400]
  · intro htype
    have hne : cvErrors f.cv ≠ [] := by
      rw [hcv]
      simp [cvErrors, htype]
    have h400 := fetch_job_invalid sr env p jb f hp (formSchemaFieldErrors_cv f hne)
    rw [h400]

/-- Witness for C4: the 2 MiB plus one byte PDF and a text file are both
answered 400, and the small PDF passes the cv checks. -/
theorem c4_cv_size_and_type_checks_witness :
    (fetch (.ok none) envA
      { method := "POST", path := "/", jsonBody := .error ⟨"unread"⟩,
        formBody := .ok ⟨some "Engineer", some "Growth", some "X", some "Y", some bigPdfFile⟩ }).1.status = 400 ∧
    (fetch (.ok none) envA
      { method := "POST", path := "/", jsonBody := .error ⟨"unread"⟩,
        formBody := .ok ⟨some "Engineer", some "Growth", some "X", some "Y", some textFile⟩ }).1.status = 400 ∧
    cvErrors (some pdfFile) = [] :=
  ⟨(c4_cv_size_and_type_checks (.ok none) envA "/" (.error ⟨"unread"⟩)
      ⟨some "Engineer", some "Growth", some "X", some "Y", some bigPdfFile⟩ bigPdfFile
      (by decide) rfl).1
      (by show (List.replicate (2 * 1024 * 1024 + 1) (0 : Nat)).length = 2 * 1024 * 1024 + 1
          rw [List.length_replicate]),
   (c4_cv_size_and_type_checks (.ok none) envA "/" (.error ⟨"unread"⟩)
      ⟨some "Engineer", some "Growth", some "X", some "Y", some textFile⟩ textFile
      (by decide) rfl).2.1 (by decide),
   (c4_cv_size_and_type_checks (.ok none) envA "/" (.error ⟨"unread"⟩)
      ⟨some "Engineer", some "Growth", some "X", some "Y", some pdfFile⟩ pdfFile
      (by decide) rfl).2.2 pdfFile (by decide) rfl⟩

/-- Claim C5: a job application missing any of the four required text
fields, or supplying it empty, is answered 400 and that field's key
appears in the fieldErrors map of the body. -/
theorem c5_missing_text_field_names_field (sr : Except Exn (Option ResendError)) (env : Env)
    (p : String) (jb : Except Exn RiderInput) (f : JobForm) (fld : String)
    (hp : p ≠ "/riders")
    (hfld : fld ∈ ["role", "motivation", "projects", "message"])
    (hmiss : f.getText fld = none ∨ f.getText fld = some "") :
    (fetch sr env { method := "POST", path := p, jsonBody := jb, formBody := .ok f }).1.status = 400 ∧
    (fetch sr env { method := "POST", path := p, jsonBody := jb, formBody := .ok f }).1.body =
      some (RespBody.jobInvalid (formSchemaFieldErrors f)) ∧
    fld ∈ (formSchemaFieldErrors f).map Prod.fst := by
  have key : formSchemaFieldErrors f ≠ [] ∧ fld ∈ (formSchemaFieldErrors f).map Prod.fst := by
    fin_cases hfld
    · change f.role = none ∨ f.role = some "" at hmiss
      rcases hmiss with h | h <;>
        simp [formSchemaFieldErrors, h, zfdText, zfdStripEmpty]
    · change f.motivation = none ∨ f.motivation = some "" at hmiss
      rcases hmiss with h | h <;>
        simp [formSchemaFieldErrors, h, zfdText, zfdStripEmpty]
    · change f.projects = none ∨ f.projects = some "" at hmiss
      rcases hmiss with h | h <;>
        simp [formSchemaFieldErrors, h, zfdText, zfdStripEmpty]
    · change f.message = none ∨ f.message = some "" at hmiss
      rcases hmiss with h | h <;>
        simp [formSchemaFieldErrors, h, zfdText, zfdStripEmpty]
  have h400 := fetch_job_invalid sr env p jb f hp key.1
  exact ⟨by rw [h400], by rw [h400], key.2⟩

/-- Witness for C5: omitting role yields 400 with role named. -/
theorem c5_missing_text_field_names_field_witness :
    (fetch (.ok none) envA
      { method := "POST", path := "/", jsonBody := .error ⟨"unread"⟩,
        formBody := .ok { jobFormA with role := none } }).1.status = 400 ∧
    (fetch (.ok none) envA
      { method := "POST", path := "/", jsonBody := .error ⟨"unread"⟩,
        formBody := .ok { jobFormA with role := none } }).1.body =
      some (RespBody.jobInvalid (formSchemaFieldErrors { jobFormA with role := none })) ∧
    "role" ∈ (formSchemaFieldErrors { jobFormA with role := none }).map Prod.fst :=
  c5_missing_text_field_names_field (.ok none) envA "/" (.error ⟨"unread"⟩)
    { jobFormA with role := none } "role" (by decide) (by simp) (.inl rfl)

/-- Claim C10: a rider payload whose phone is present but empty, or any
string at all, passes RiderFormSchema (the schema puts no minimum on
phone), so the handler renders the template and invokes the send rather
than rejecting the request. -/
theorem c10_phone_needs_no_minimum (env : Env) (em : Option String) (ph g dob fn ln : String)
    (hg : 2 ≤ (jsTrim g).length) (hdob : 2 ≤ dob.length)
    (hfn : 2 ≤ (jsTrim fn).length) (hln : 2 ≤ (jsTrim ln).length) :
    riderParse ⟨em, some ph, some g, some dob, some fn, some ln⟩ =
      .ok ⟨em.map jsTrim, jsTrim ph, jsTrim g, dob, jsTrim fn, jsTrim ln⟩ ∧
    (fetch (.ok none) env (riderRequest (.ok ⟨em, some ph, some g, some dob, some fn, some ln⟩))).1 =
      successResponse ∧
    (fetch (.ok none) env (riderRequest (.ok ⟨em, some ph, some g, some dob, some fn, some ln⟩))).2 =
      [riderMsg env ⟨em.map jsTrim, jsTrim ph, jsTrim g, dob, jsTrim fn, jsTrim ln⟩] := by
  have hP := riderParse_ok em ph g dob fn ln hg hdob hfn hln
  refine ⟨hP, ?_, ?_⟩ <;> simp [fetch, riderRequest, hP, jsTruthy]

/-- Witness for C10: an empty phone string still reaches the 200 path
and the send call. -/
theorem c10_phone_needs_no_minimum_witness :
    riderParse ⟨none, some "", some "female", some "1990-01-01", some "Jane", some "Doe"⟩ =
      .ok ⟨none, "", "female", "1990-01-01", "Jane", "Doe"⟩ ∧
    (fetch (.ok none) envA
      (riderRequest (.ok ⟨none, some "", some "female", some "1990-01-01", some "Jane", some "Doe"⟩))).1 =
      successResponse ∧
    (fetch (.ok none) envA
      (riderRequest (.ok ⟨none, some "", some "female", some "1990-01-01", some "Jane", some "Doe"⟩))).2 =
      [riderMsg envA ⟨none, "", "female", "1990-01-01", "Jane", "Doe"⟩] :=
  c10_phone_needs_no_minimum envA none "" "female" "1990-01-01" "Jane" "Doe"
    (by decide) (by decide) (by decide) (by decide)

end FormIntake
